import Mathlib

/-!
Verification of the healthy-weight-range calculator and its usage counter.

The calculator (`src/src/App.tsx`, the `useEffect` body) is embedded as pure
functions over `ℚ`: every intermediate `const` of the source becomes a
definition of the same name, arithmetic on IEEE doubles is modelled as exact
rational arithmetic.  The usage counter (the Express server half of the file:
`getUsageCount` / `incrementUsageCount`) is embedded as explicit state passing
over a small `Store` type describing the backing file.
-/

namespace HealthyWeight

/-- `sex` input: `'male' | 'female'`. -/
inductive Sex where
  | male
  | female
deriving DecidableEq

/-- `boneStructure` input: `'small' | 'medium' | 'large'`. -/
inductive BoneStructure where
  | small
  | medium
  | large
deriving DecidableEq

/-- `healthStatus` field: `'within' | 'partially_outside' | 'fully_outside'`. -/
inductive HealthStatus where
  | within
  | partially_outside
  | fully_outside
deriving DecidableEq

/-- The four strings assigned to `bmiClassification` in the source. -/
inductive BmiClass where
  | Underweight
  | Normal
  | Overweight
  | Obese
deriving DecidableEq

/-- The five input fields the calculation effect depends on. -/
structure Input where
  sex : Sex
  ageYears : ℚ
  heightFeet : ℚ
  heightInches : ℚ
  boneStructure : BoneStructure

/-- The `WeightResult` interface of the source (the derived `healthStatusLabel`
string is omitted; it is determined by `healthStatus`). -/
structure WeightResult where
  baseHamwiWeightLbs : ℚ
  adjustedFrameWeightLbs : ℚ
  minHealthyWeightLbs : ℚ
  maxHealthyWeightLbs : ℚ
  bmiAtMinWeight : ℚ
  bmiAtMaxWeight : ℚ
  bmiHealthyMinLbs : ℚ
  bmiHealthyMaxLbs : ℚ
  healthStatus : HealthStatus
  bmiClassification : BmiClass

/-- The validity condition: the source rejects (sets the result to `null`) when
`age <= 0 || heightFeet < 0 || heightInches < 0 || heightInches > 11`; this is
the complement of that guard. -/
def validInput (i : Input) : Prop :=
  0 < i.ageYears ∧ 0 ≤ i.heightFeet ∧ 0 ≤ i.heightInches ∧ i.heightInches ≤ 11

instance (i : Input) : Decidable (validInput i) := by
  unfold validInput
  infer_instance

/-- `const totalInches = (heightFeet * 12) + heightInches`. -/
def totalInches (i : Input) : ℚ :=
  i.heightFeet * 12 + i.heightInches

/-- `const heightInMeters = totalInches * 0.0254`. -/
def heightInMeters (i : Input) : ℚ :=
  totalInches i * 0.0254

/-- The `totalInches < 60` branch of the Hamwi base weight:
`106 - (60 - totalInches) * 6` for males, `100 - (60 - totalInches) * 5`
for females. -/
def hamwiBelow (s : Sex) (t : ℚ) : ℚ :=
  match s with
  | .male => 106 - (60 - t) * 6
  | .female => 100 - (60 - t) * 5

/-- The `totalInches >= 60` branch of the Hamwi base weight:
`106 + (totalInches - 60) * 6` for males, `100 + (totalInches - 60) * 5`
for females. -/
def hamwiAtOrAbove (s : Sex) (t : ℚ) : ℚ :=
  match s with
  | .male => 106 + (t - 60) * 6
  | .female => 100 + (t - 60) * 5

/-- The Hamwi base weight as a function of sex and total inches, with the
branch split of the source at `baseHeightInches = 60`. -/
def hamwiBase (s : Sex) (t : ℚ) : ℚ :=
  if t < 60 then hamwiBelow s t else hamwiAtOrAbove s t

/-- `baseHamwiWeightLbs` as assigned in the source. -/
def baseHamwiWeightLbs (i : Input) : ℚ :=
  hamwiBase i.sex (totalInches i)

/-- `adjustedFrameWeightLbs`: the base weight times `0.93` for a small frame,
`1.07` for a large one, unchanged for a medium one. -/
def adjustedFrameWeightLbs (i : Input) : ℚ :=
  match i.boneStructure with
  | .small => baseHamwiWeightLbs i * 0.93
  | .medium => baseHamwiWeightLbs i
  | .large => baseHamwiWeightLbs i * 1.07

/-- `const rangePercentage = 0.08`. -/
def rangePercentage : ℚ := 0.08

/-- `minHealthyWeightLbs = adjustedFrameWeightLbs * (1 - rangePercentage)`. -/
def minHealthyWeightLbs (i : Input) : ℚ :=
  adjustedFrameWeightLbs i * (1 - rangePercentage)

/-- `maxHealthyWeightLbs = adjustedFrameWeightLbs * (1 + rangePercentage)`. -/
def maxHealthyWeightLbs (i : Input) : ℚ :=
  adjustedFrameWeightLbs i * (1 + rangePercentage)

/-- `bmiAtMinWeight = minHealthyWeightLbs / (heightInMeters * heightInMeters)`
— exactly as in the source, which divides the pound value directly. -/
def bmiAtMinWeight (i : Input) : ℚ :=
  minHealthyWeightLbs i / (heightInMeters i * heightInMeters i)

/-- `bmiAtMaxWeight = maxHealthyWeightLbs / (heightInMeters * heightInMeters)`
— exactly as in the source, which divides the pound value directly. -/
def bmiAtMaxWeight (i : Input) : ℚ :=
  maxHealthyWeightLbs i / (heightInMeters i * heightInMeters i)

/-- `bmiHealthyMinLbs = 18.5 * (heightInMeters * heightInMeters) * 2.20462`. -/
def bmiHealthyMinLbs (i : Input) : ℚ :=
  18.5 * (heightInMeters i * heightInMeters i) * 2.20462

/-- `bmiHealthyMaxLbs = 24.9 * (heightInMeters * heightInMeters) * 2.20462`. -/
def bmiHealthyMaxLbs (i : Input) : ℚ :=
  24.9 * (heightInMeters i * heightInMeters i) * 2.20462

/-- `midpointWeightLbs = (minHealthyWeightLbs + maxHealthyWeightLbs) / 2`. -/
def midpointWeightLbs (i : Input) : ℚ :=
  (minHealthyWeightLbs i + maxHealthyWeightLbs i) / 2

/-- `midpointWeightKg = midpointWeightLbs / 2.20462`. -/
def midpointWeightKg (i : Input) : ℚ :=
  midpointWeightLbs i / 2.20462

/-- `bmiAtMidpoint = midpointWeightKg / (heightInMeters * heightInMeters)`. -/
def bmiAtMidpoint (i : Input) : ℚ :=
  midpointWeightKg i / (heightInMeters i * heightInMeters i)

/-- The midpoint classification chain of the source:
`< 18.5` Underweight; `>= 18.5 && <= 24.9` Normal; `>= 25 && <= 29.9`
Overweight; otherwise Obese. -/
def bmiClassification (i : Input) : BmiClass :=
  if bmiAtMidpoint i < 18.5 then .Underweight
  else if 18.5 ≤ bmiAtMidpoint i ∧ bmiAtMidpoint i ≤ 24.9 then .Normal
  else if 25 ≤ bmiAtMidpoint i ∧ bmiAtMidpoint i ≤ 29.9 then .Overweight
  else .Obese

/-- The health-status chain of the source: `fully_outside` when
`bmiAtMinWeight > 24.9 || bmiAtMaxWeight < 18.5`, else `partially_outside`
when `bmiAtMinWeight < 18.5 || bmiAtMaxWeight > 24.9`, else `within`. -/
def healthStatus (i : Input) : HealthStatus :=
  if 24.9 < bmiAtMinWeight i ∨ bmiAtMaxWeight i < 18.5 then .fully_outside
  else if bmiAtMinWeight i < 18.5 ∨ 24.9 < bmiAtMaxWeight i then .partially_outside
  else .within

/-- The record passed to `setRecommendedWeight` on the valid path. -/
def computeResult (i : Input) : WeightResult where
  baseHamwiWeightLbs := baseHamwiWeightLbs i
  adjustedFrameWeightLbs := adjustedFrameWeightLbs i
  minHealthyWeightLbs := minHealthyWeightLbs i
  maxHealthyWeightLbs := maxHealthyWeightLbs i
  bmiAtMinWeight := bmiAtMinWeight i
  bmiAtMaxWeight := bmiAtMaxWeight i
  bmiHealthyMinLbs := bmiHealthyMinLbs i
  bmiHealthyMaxLbs := bmiHealthyMaxLbs i
  healthStatus := healthStatus i
  bmiClassification := bmiClassification i

/-- `compute`: the whole calculation effect.  The source first tests
`age <= 0 || heightFeet < 0 || heightInches < 0 || heightInches > 11` and sets
the result to `null` (here `none`); otherwise it builds the full record. -/
def compute (i : Input) : Option WeightResult :=
  if i.ageYears ≤ 0 ∨ i.heightFeet < 0 ∨ i.heightInches < 0 ∨ 11 < i.heightInches then
    none
  else
    some (computeResult i)

/-- The condition under which the source calls the increment endpoint: the
guard `age >= 18 && heightFeet > 0 && heightInches >= 0`, reached only when
the validity guard did not return early. -/
def incrementUsageInvoked (i : Input) : Prop :=
  ¬(i.ageYears ≤ 0 ∨ i.heightFeet < 0 ∨ i.heightInches < 0 ∨ 11 < i.heightInches) ∧
  (18 ≤ i.ageYears ∧ 0 < i.heightFeet ∧ 0 ≤ i.heightInches)

instance (i : Input) : Decidable (incrementUsageInvoked i) := by
  unfold incrementUsageInvoked
  infer_instance

/-- Follows the spec's words, for comparison with `bmiAtMinWeight`: the BMI of
the range minimum computed with the pound value first converted to kilograms
(`1 lb = 1/2.20462 kg`) and then divided by the squared height. -/
def bmiAtMinWeightSpec (i : Input) : ℚ :=
  (minHealthyWeightLbs i / 2.20462) / (heightInMeters i * heightInMeters i)

/-- Follows the spec's words, for comparison with `bmiAtMaxWeight`: kilogram
conversion applied before dividing by the squared height. -/
def bmiAtMaxWeightSpec (i : Input) : ℚ :=
  (maxHealthyWeightLbs i / 2.20462) / (heightInMeters i * heightInMeters i)

/-- The observable state of the usage file read by the server half of the
source.  `absent`: `readFile` fails with `ENOENT`; `corrupt`: the file is read
but `JSON.parse` throws (any non-`ENOENT` failure of the `try` block);
`noCount`: the JSON parses but `usage.count` is missing or falsy, so
`usage.count || 0` yields `0`; `holds c`: the file holds `{count: c}` with a
non-negative integer `c` (the only shape the code itself ever writes). -/
inductive Store where
  | absent
  | corrupt
  | noCount
  | holds (count : Nat)
deriving DecidableEq

/-- `getUsageCount`: returns the parsed `usage.count || 0` when the file is
readable; on `ENOENT` writes `{count: 0}` and returns `0`; on any other
failure logs and returns `0` without writing.  The pair is (returned count,
store state after the call). -/
def getUsageCount : Store → Nat × Store
  | .absent => (0, .holds 0)
  | .corrupt => (0, .corrupt)
  | .noCount => (0, .noCount)
  | .holds c => (c, .holds c)

/-- `incrementUsageCount`: reads via `getUsageCount`, adds one, writes
`{count}` and returns the new count. -/
def incrementUsageCount (s : Store) : Nat × Store :=
  let r := getUsageCount s
  (r.1 + 1, .holds (r.1 + 1))

/-- `N` sequential calls of `incrementUsageCount`, collecting the returned
counts in call order together with the final store state. -/
def runIncrements : Store → Nat → List Nat × Store
  | s, 0 => ([], s)
  | s, n + 1 =>
    let r := incrementUsageCount s
    let rest := runIncrements r.2 n
    (r.1 :: rest.1, rest.2)

/-- Sample input: male, age 25, 5 ft 7 in, medium frame (the spec's first
concrete scenario). -/
def sampleInput : Input :=
  { sex := .male, ageYears := 25, heightFeet := 5, heightInches := 7,
    boneStructure := .medium }

/-- Input whose midpoint BMI lands in the open interval `(24.9, 25)`:
male, age 25, 5 ft 7.5 in, large frame. -/
def gapInput : Input :=
  { sex := .male, ageYears := 25, heightFeet := 5, heightInches := 7.5,
    boneStructure := .large }

/-- Valid input of height zero: male, age 25, 0 ft 0 in, medium frame. -/
def zeroHeightInput : Input :=
  { sex := .male, ageYears := 25, heightFeet := 0, heightInches := 0,
    boneStructure := .medium }

/-- Valid adult input with `heightFeet = 0`: male, age 25, 0 ft 5 in,
medium frame. -/
def zeroFeetInput : Input :=
  { sex := .male, ageYears := 25, heightFeet := 0, heightInches := 5,
    boneStructure := .medium }

/-- The negation of `validInput` is exactly the rejection guard of the
source. -/
theorem not_validInput_iff (i : Input) :
    ¬ validInput i ↔
      (i.ageYears ≤ 0 ∨ i.heightFeet < 0 ∨ i.heightInches < 0 ∨ 11 < i.heightInches) := by
  simp only [validInput, not_and_or, not_lt, not_le]

/-- Claim C5: `compute` returns the no-result signal exactly on out-of-domain
inputs, and on every valid input it returns the fully populated result
record. -/
theorem compute_none_iff_invalid (i : Input) :
    (compute i = none ↔ ¬ validInput i) ∧
    (validInput i → compute i = some (computeResult i)) := by
  constructor
  · unfold compute
    rw [not_validInput_iff]
    split_ifs with h
    · simp [h]
    · simp [h]
  · intro hv
    unfold compute
    rw [if_neg (fun hc => ((not_validInput_iff i).mpr hc) hv)]

/-- Witness for C5 at the sample input. -/
theorem compute_none_iff_invalid_witness :
    validInput sampleInput ∧ compute sampleInput = some (computeResult sampleInput) :=
  ⟨by decide, (compute_none_iff_invalid sampleInput).2 (by decide)⟩

/-- Claim C9: `getUsageCount` returns `0` and initializes the store to
`{count: 0}` when the file is absent, returns the persisted value unchanged
when it is readable, and degrades to `0` on any other read failure. -/
theorem getUsageCount_spec :
    getUsageCount Store.absent = (0, Store.holds 0) ∧
    (∀ c : Nat, getUsageCount (Store.holds c) = (c, Store.holds c)) ∧
    (getUsageCount Store.corrupt).1 = 0 ∧
    (getUsageCount Store.noCount).1 = 0 :=
  ⟨rfl, fun _ => rfl, rfl, rfl⟩

/-- Claim C10: a read failure other than file-absence leaves the store
unchanged; only the absent case writes the `{count: 0}` record. -/
theorem getUsageCount_no_write (s : Store) (h : s ≠ Store.absent) :
    (getUsageCount s).2 = s ∧ (getUsageCount Store.absent).2 = Store.holds 0 := by
  refine ⟨?_, rfl⟩
  cases s with
  | absent => exact absurd rfl h
  | corrupt => rfl
  | noCount => rfl
  | holds c => rfl

/-- Witness for C10 at the unreadable (parse-failure) state. -/
theorem getUsageCount_no_write_witness :
    Store.corrupt ≠ Store.absent ∧
    ((getUsageCount Store.corrupt).2 = Store.corrupt ∧
     (getUsageCount Store.absent).2 = Store.holds 0) :=
  ⟨by decide, getUsageCount_no_write Store.corrupt (by decide)⟩

/-- Unfolding `runIncrements` from a clean `{count: c}` state. -/
theorem runIncrements_holds (N c : Nat) :
    runIncrements (Store.holds c) N =
      ((List.range N).map fun k => c + (k + 1), Store.holds (c + N)) := by
  induction N generalizing c with
  | zero => simp [runIncrements]
  | succ n ih =>
    have h1 : incrementUsageCount (Store.holds c) = (c + 1, Store.holds (c + 1)) := rfl
    simp only [runIncrements, h1, ih (c + 1), List.range_succ_eq_map, List.map_cons,
      List.map_map, Prod.mk.injEq]
    have hf : ((fun k => c + (k + 1)) ∘ Nat.succ) = fun k => c + 1 + (k + 1) := by
      funext k
      simp only [Function.comp_apply]
      omega
    refine ⟨?_, by congr 1; omega⟩
    rw [hf]

/-- Claim C8: `N` sequential `incrementAndRead` calls starting from a store
holding `c` return `c + k` on the `k`-th call (1-indexed) and leave the
persisted count equal to `c + N`. -/
theorem incrementUsageCount_sequential (c N : Nat) :
    (runIncrements (Store.holds c) N).1 = (List.range N).map (fun k => c + (k + 1)) ∧
    (runIncrements (Store.holds c) N).2 = Store.holds (c + N) := by
  rw [runIncrements_holds]
  exact ⟨rfl, rfl⟩

/-- Claim C6: the result's health status is `fully_outside` exactly when its
`bmiAtMinWeight` exceeds 24.9 or its `bmiAtMaxWeight` is below 18.5; else
`partially_outside` exactly when its `bmiAtMinWeight` is below 18.5 or its
`bmiAtMaxWeight` exceeds 24.9; else `within`. -/
theorem healthStatus_spec (i : Input) (h : validInput i) :
    ((computeResult i).healthStatus = HealthStatus.fully_outside ↔
      (24.9 < (computeResult i).bmiAtMinWeight ∨ (computeResult i).bmiAtMaxWeight < 18.5)) ∧
    ((computeResult i).healthStatus = HealthStatus.partially_outside ↔
      (¬(24.9 < (computeResult i).bmiAtMinWeight ∨ (computeResult i).bmiAtMaxWeight < 18.5) ∧
       ((computeResult i).bmiAtMinWeight < 18.5 ∨ 24.9 < (computeResult i).bmiAtMaxWeight))) ∧
    ((computeResult i).healthStatus = HealthStatus.within ↔
      (¬(24.9 < (computeResult i).bmiAtMinWeight ∨ (computeResult i).bmiAtMaxWeight < 18.5) ∧
       ¬((computeResult i).bmiAtMinWeight < 18.5 ∨ 24.9 < (computeResult i).bmiAtMaxWeight))) := by
  simp only [computeResult]
  unfold healthStatus
  split_ifs with h1 h2 <;> simp_all

/-- Witness for C6 at the sample input (whose unconverted BMI bounds both
exceed 24.9, so the status is `fully_outside`). -/
theorem healthStatus_spec_witness :
    validInput sampleInput ∧
    (((computeResult sampleInput).healthStatus = HealthStatus.fully_outside ↔
       (24.9 < (computeResult sampleInput).bmiAtMinWeight ∨
        (computeResult sampleInput).bmiAtMaxWeight < 18.5)) ∧
     ((computeResult sampleInput).healthStatus = HealthStatus.partially_outside ↔
       (¬(24.9 < (computeResult sampleInput).bmiAtMinWeight ∨
          (computeResult sampleInput).bmiAtMaxWeight < 18.5) ∧
        ((computeResult sampleInput).bmiAtMinWeight < 18.5 ∨
         24.9 < (computeResult sampleInput).bmiAtMaxWeight))) ∧
     ((computeResult sampleInput).healthStatus = HealthStatus.within ↔
       (¬(24.9 < (computeResult sampleInput).bmiAtMinWeight ∨
          (computeResult sampleInput).bmiAtMaxWeight < 18.5) ∧
        ¬((computeResult sampleInput).bmiAtMinWeight < 18.5 ∨
          24.9 < (computeResult sampleInput).bmiAtMaxWeight)))) :=
  ⟨by decide, healthStatus_spec sampleInput (by decide)⟩

/-- The Hamwi base is non-decreasing in total inches for each sex. -/
theorem hamwiBase_mono (s : Sex) {t₁ t₂ : ℚ} (h : t₁ ≤ t₂) :
    hamwiBase s t₁ ≤ hamwiBase s t₂ := by
  cases s <;>
    simp only [hamwiBase, hamwiBelow, hamwiAtOrAbove] <;>
    split_ifs <;> linarith

/-- Claim C7: holding sex (and frame) fixed, `baseHamwiWeightLbs` is
non-decreasing in total inches, and at the split `totalInches = 60` the two
branch formulas agree with the function value: 106 (male), 100 (female). -/
theorem baseHamwi_monotone (i₁ i₂ : Input) (hs : i₁.sex = i₂.sex)
    (h : totalInches i₁ ≤ totalInches i₂) :
    baseHamwiWeightLbs i₁ ≤ baseHamwiWeightLbs i₂ ∧
    hamwiBelow i₁.sex 60 = hamwiBase i₁.sex 60 ∧
    hamwiAtOrAbove i₁.sex 60 = hamwiBase i₁.sex 60 ∧
    hamwiBase Sex.male 60 = 106 ∧ hamwiBase Sex.female 60 = 100 := by
  refine ⟨?_, ?_, ?_, ?_, ?_⟩
  · unfold baseHamwiWeightLbs
    rw [hs]
    exact hamwiBase_mono i₂.sex h
  · cases hsx : i₁.sex <;>
      norm_num [hamwiBase, hamwiBelow, hamwiAtOrAbove]
  · cases hsx : i₁.sex <;>
      norm_num [hamwiBase, hamwiAtOrAbove]
  · norm_num [hamwiBase, hamwiAtOrAbove]
  · norm_num [hamwiBase, hamwiAtOrAbove]

/-- Witness for C7: sample input (5 ft 7 in) against the 5 ft 7.5 in input,
both male. -/
theorem baseHamwi_monotone_witness :
    sampleInput.sex = gapInput.sex ∧ totalInches sampleInput ≤ totalInches gapInput ∧
    (baseHamwiWeightLbs sampleInput ≤ baseHamwiWeightLbs gapInput ∧
     hamwiBelow sampleInput.sex 60 = hamwiBase sampleInput.sex 60 ∧
     hamwiAtOrAbove sampleInput.sex 60 = hamwiBase sampleInput.sex 60 ∧
     hamwiBase Sex.male 60 = 106 ∧ hamwiBase Sex.female 60 = 100) :=
  ⟨rfl, by norm_num [totalInches, sampleInput, gapInput],
   baseHamwi_monotone sampleInput gapInput rfl
     (by norm_num [totalInches, sampleInput, gapInput])⟩

/-- Counterexample for C1 as stated: at `gapInput` the midpoint BMI lies
strictly between 24.9 and 29.9 yet the source classifies it `Obese`, because
the Overweight test requires `bmiAtMidpoint >= 25` and the interval
`(24.9, 25)` falls through to the final `else`. -/
theorem bmiClassification_gap_cex :
    validInput gapInput ∧
    24.9 < bmiAtMidpoint gapInput ∧ bmiAtMidpoint gapInput ≤ 29.9 ∧
    bmiClassification gapInput = BmiClass.Obese := by
  norm_num [validInput, gapInput, bmiClassification, bmiAtMidpoint, midpointWeightKg,
    midpointWeightLbs, minHealthyWeightLbs, maxHealthyWeightLbs, adjustedFrameWeightLbs,
    rangePercentage, baseHamwiWeightLbs, hamwiBase, hamwiBelow, hamwiAtOrAbove,
    heightInMeters, totalInches]

/-- Claim C1 (amended): the midpoint classification is Underweight below 18.5,
Normal on `[18.5, 24.9]`, Overweight on `[25, 29.9]`, and Obese above 29.9 or
in the uncovered gap `(24.9, 25)`. -/
theorem bmiClassification_spec (i : Input) (h : validInput i) :
    (bmiClassification i = BmiClass.Underweight ↔ bmiAtMidpoint i < 18.5) ∧
    (bmiClassification i = BmiClass.Normal ↔
      18.5 ≤ bmiAtMidpoint i ∧ bmiAtMidpoint i ≤ 24.9) ∧
    (bmiClassification i = BmiClass.Overweight ↔
      25 ≤ bmiAtMidpoint i ∧ bmiAtMidpoint i ≤ 29.9) ∧
    (bmiClassification i = BmiClass.Obese ↔
      (29.9 < bmiAtMidpoint i ∨ (24.9 < bmiAtMidpoint i ∧ bmiAtMidpoint i < 25))) := by
  unfold bmiClassification
  split_ifs with h1 h2 h3
  · refine ⟨⟨fun _ => h1, fun _ => rfl⟩,
      ⟨fun heq => (nomatch heq), fun hc => absurd h1 (not_lt.mpr hc.1)⟩,
      ⟨fun heq => (nomatch heq),
       fun hc => absurd h1 (not_lt.mpr (le_trans (by norm_num) hc.1))⟩,
      ⟨fun heq => (nomatch heq), fun hc => ?_⟩⟩
    rcases hc with hc | ⟨hc, _⟩ <;>
      exact absurd h1 (not_lt.mpr (by linarith))
  · refine ⟨⟨fun heq => (nomatch heq), fun hlt => absurd hlt h1⟩,
      ⟨fun _ => h2, fun _ => rfl⟩,
      ⟨fun heq => (nomatch heq),
       fun hc => absurd hc.1 (not_le.mpr (by linarith [h2.2]))⟩,
      ⟨fun heq => (nomatch heq), fun hc => ?_⟩⟩
    rcases hc with hc | ⟨hc, _⟩
    · exact absurd hc (not_lt.mpr (le_trans h2.2 (by norm_num)))
    · exact absurd hc (not_lt.mpr h2.2)
  · refine ⟨⟨fun heq => (nomatch heq), fun hlt => absurd hlt h1⟩,
      ⟨fun heq => (nomatch heq), fun hc => absurd hc h2⟩,
      ⟨fun _ => h3, fun _ => rfl⟩,
      ⟨fun heq => (nomatch heq), fun hc => ?_⟩⟩
    rcases hc with hc | ⟨_, hc2⟩
    · exact absurd hc (not_lt.mpr h3.2)
    · exact absurd h3.1 (not_le.mpr hc2)
  · refine ⟨⟨fun heq => (nomatch heq), fun hlt => absurd hlt h1⟩,
      ⟨fun heq => (nomatch heq), fun hc => absurd hc h2⟩,
      ⟨fun heq => (nomatch heq), fun hc => absurd hc h3⟩,
      ⟨fun _ => ?_, fun _ => rfl⟩⟩
    have hx1 : 18.5 ≤ bmiAtMidpoint i := not_lt.mp h1
    have hx2 : 24.9 < bmiAtMidpoint i := by
      by_contra hcon
      push_neg at hcon
      exact h2 ⟨hx1, hcon⟩
    by_cases hx3 : bmiAtMidpoint i < 25
    · exact Or.inr ⟨hx2, hx3⟩
    · push_neg at hx3
      refine Or.inl ?_
      by_contra hcon
      push_neg at hcon
      exact h3 ⟨hx3, hcon⟩

/-- Witness for C1 (amended) at the sample input (midpoint BMI ≈ 23.2,
classified Normal). -/
theorem bmiClassification_spec_witness :
    validInput sampleInput ∧
    ((bmiClassification sampleInput = BmiClass.Underweight ↔
       bmiAtMidpoint sampleInput < 18.5) ∧
     (bmiClassification sampleInput = BmiClass.Normal ↔
       18.5 ≤ bmiAtMidpoint sampleInput ∧ bmiAtMidpoint sampleInput ≤ 24.9) ∧
     (bmiClassification sampleInput = BmiClass.Overweight ↔
       25 ≤ bmiAtMidpoint sampleInput ∧ bmiAtMidpoint sampleInput ≤ 29.9) ∧
     (bmiClassification sampleInput = BmiClass.Obese ↔
       (29.9 < bmiAtMidpoint sampleInput ∨
        (24.9 < bmiAtMidpoint sampleInput ∧ bmiAtMidpoint sampleInput < 25)))) :=
  ⟨by decide, bmiClassification_spec sampleInput (by decide)⟩

/-- Claim C2 (code bug): the source divides the pound weights directly by the
squared height, so each stored BMI bound is the spec's value times 2.20462;
evaluated at the sample input the stored bound is over 40 while the spec's
kilogram-based value is under 25. -/
theorem bmiAtWeight_missing_kg_conversion :
    (∀ i : Input,
      bmiAtMinWeight i = bmiAtMinWeightSpec i * 2.20462 ∧
      bmiAtMaxWeight i = bmiAtMaxWeightSpec i * 2.20462) ∧
    40 < bmiAtMinWeight sampleInput ∧ bmiAtMinWeightSpec sampleInput < 25 ∧
    bmiAtMinWeight sampleInput ≠ bmiAtMinWeightSpec sampleInput := by
  have heval : bmiAtMinWeight sampleInput = 3404000000 / 72403081 ∧
      bmiAtMinWeightSpec sampleInput = 170200000000000 / 7981064021711 := by
    constructor <;>
      norm_num [bmiAtMinWeight, bmiAtMinWeightSpec, minHealthyWeightLbs,
        adjustedFrameWeightLbs, rangePercentage, baseHamwiWeightLbs, hamwiBase,
        hamwiBelow, hamwiAtOrAbove, heightInMeters, totalInches, sampleInput]
  refine ⟨fun i => ⟨?_, ?_⟩, by rw [heval.1]; norm_num, by rw [heval.2]; norm_num,
    by rw [heval.1, heval.2]; norm_num⟩
  · unfold bmiAtMinWeight bmiAtMinWeightSpec
    rw [div_mul_eq_mul_div, div_mul_cancel₀ _ (by norm_num : (2.20462:ℚ) ≠ 0)]
  · unfold bmiAtMaxWeight bmiAtMaxWeightSpec
    rw [div_mul_eq_mul_div, div_mul_cancel₀ _ (by norm_num : (2.20462:ℚ) ≠ 0)]

/-- Counterexample for C3 as stated: the zero-height input passes validation
yet its base and minimum weights are negative. -/
theorem positive_fields_cex :
    validInput zeroHeightInput ∧
    (computeResult zeroHeightInput).baseHamwiWeightLbs < 0 ∧
    (computeResult zeroHeightInput).minHealthyWeightLbs < 0 := by
  norm_num [validInput, zeroHeightInput, computeResult, minHealthyWeightLbs,
    adjustedFrameWeightLbs, rangePercentage, baseHamwiWeightLbs, hamwiBase,
    hamwiBelow, hamwiAtOrAbove, totalInches]

/-- Claim C3 (amended): on valid inputs whose total inches exceed `254/6`
(≈ 42.34 in), every weight field and both BMI fields of the result are
positive. -/
theorem result_fields_positive (i : Input) (h : validInput i)
    (ht : 254 / 6 < totalInches i) :
    0 < (computeResult i).baseHamwiWeightLbs ∧
    0 < (computeResult i).adjustedFrameWeightLbs ∧
    0 < (computeResult i).minHealthyWeightLbs ∧
    0 < (computeResult i).maxHealthyWeightLbs ∧
    0 < (computeResult i).bmiAtMinWeight ∧
    0 < (computeResult i).bmiAtMaxWeight := by
  have hbase : 0 < baseHamwiWeightLbs i := by
    unfold baseHamwiWeightLbs
    cases hs : i.sex <;>
      simp only [hamwiBase, hamwiBelow, hamwiAtOrAbove] <;>
      split_ifs <;> linarith
  have hadj : 0 < adjustedFrameWeightLbs i := by
    unfold adjustedFrameWeightLbs
    cases hb : i.boneStructure
    · exact mul_pos hbase (by norm_num)
    · exact hbase
    · exact mul_pos hbase (by norm_num)
  have hmin : 0 < minHealthyWeightLbs i := by
    unfold minHealthyWeightLbs rangePercentage
    exact mul_pos hadj (by norm_num)
  have hmax : 0 < maxHealthyWeightLbs i := by
    unfold maxHealthyWeightLbs rangePercentage
    exact mul_pos hadj (by norm_num)
  have hh : 0 < heightInMeters i := by
    unfold heightInMeters
    have htpos : 0 < totalInches i := lt_trans (by norm_num) ht
    exact mul_pos htpos (by norm_num)
  exact ⟨hbase, hadj, hmin, hmax,
    div_pos hmin (mul_pos hh hh), div_pos hmax (mul_pos hh hh)⟩

/-- Witness for C3 (amended) at the sample input (67 total inches). -/
theorem result_fields_positive_witness :
    validInput sampleInput ∧ 254 / 6 < totalInches sampleInput ∧
    (0 < (computeResult sampleInput).baseHamwiWeightLbs ∧
     0 < (computeResult sampleInput).adjustedFrameWeightLbs ∧
     0 < (computeResult sampleInput).minHealthyWeightLbs ∧
     0 < (computeResult sampleInput).maxHealthyWeightLbs ∧
     0 < (computeResult sampleInput).bmiAtMinWeight ∧
     0 < (computeResult sampleInput).bmiAtMaxWeight) :=
  ⟨by decide, by norm_num [totalInches, sampleInput],
   result_fields_positive sampleInput (by decide)
     (by norm_num [totalInches, sampleInput])⟩

/-- Claim C4 (code bug): the increment call is gated on
`heightFeet > 0` in addition to validity and adulthood, so the valid adult
input with `heightFeet = 0` computes a result but never triggers the
increment. -/
theorem increment_requires_positive_feet :
    (∀ i : Input, incrementUsageInvoked i ↔
      (validInput i ∧ 18 ≤ i.ageYears ∧ 0 < i.heightFeet)) ∧
    validInput zeroFeetInput ∧ 18 ≤ zeroFeetInput.ageYears ∧
    (compute zeroFeetInput).isSome ∧ ¬ incrementUsageInvoked zeroFeetInput := by
  refine ⟨fun i => ?_, by decide, by decide, by decide, by decide⟩
  unfold incrementUsageInvoked
  constructor
  · rintro ⟨hg, ha, hf, hh⟩
    have hv : validInput i := by
      by_contra hnv
      exact hg ((not_validInput_iff i).mp hnv)
    exact ⟨hv, ha, hf⟩
  · rintro ⟨hv, ha, hf⟩
    exact ⟨fun hg => (not_validInput_iff i).mpr hg hv, ha, hf, hv.2.2.1⟩

end HealthyWeight
